import Mathlib

/-!
Verification of the Mythmaker pipeline (src/app.py).

The program is a single-file application whose core is the coroutine
run_pipeline together with its inner helper execute_agent.  External
collaborators (the generative-AI client, the json library) are modelled as
oracles supplied through an environment record; everything the repository
itself computes (text extraction from a response, error recovery, context
compaction, the two-iteration refine loop with its evaluator gate) is
translated directly from the source.
-/

/-- A value returned by the json library (json.loads).  JSON numbers are
modelled at integer precision, which covers every value the claims and the
evaluator contract (integer scores) exercise. -/
inductive JVal where
  | num (n : Int)
  | str (s : String)
  | bool (b : Bool)
  | null
  | arr (xs : List JVal)
  | obj (fields : List (String × JVal))

/-- Python truthiness of a value, as used by the source line
`if feedback:` — empty string, zero, False, None and empty containers are
falsy. -/
def pyTruthy : JVal → Bool
  | JVal.num n => n ≠ 0
  | JVal.str s => s ≠ ""
  | JVal.bool b => b
  | JVal.null => false
  | JVal.arr xs => !xs.isEmpty
  | JVal.obj fs => !fs.isEmpty

mutual

/-- Python repr of a value (used by str/format for container elements).
Scalar cases follow CPython exactly; string quoting inside containers is
modelled without escape refinement, which no reachable claim exercises. -/
def pyRepr : JVal → String
  | JVal.num n => toString n
  | JVal.str s => "\x27" ++ s ++ "\x27"
  | JVal.bool b => if b then "True" else "False"
  | JVal.null => "None"
  | JVal.arr xs => "[" ++ pyReprList xs ++ "]"
  | JVal.obj fs => "\x7b" ++ pyReprFields fs ++ "\x7d"

/-- Comma-separated reprs of the elements of a list value. -/
def pyReprList : List JVal → String
  | [] => ""
  | [x] => pyRepr x
  | x :: y :: xs => pyRepr x ++ ", " ++ pyReprList (y :: xs)

/-- Comma-separated reprs of the key/value pairs of a dict value. -/
def pyReprFields : List (String × JVal) → String
  | [] => ""
  | [kv] => "\x27" ++ kv.1 ++ "\x27: " ++ pyRepr kv.2
  | kv :: kw :: fs => "\x27" ++ kv.1 ++ "\x27: " ++ pyRepr kv.2 ++ ", " ++ pyReprFields (kw :: fs)

end

/-- Python str() of a value, as interpolated by an f-string: a string is
rendered as itself, every other value through its repr. -/
def pyStr : JVal → String
  | JVal.str s => s
  | v => pyRepr v

/-- Python comparison `v >= n` for an int literal n: defined on numbers and
booleans (bool is an int subclass), a TypeError (`none`) on anything else. -/
def pyGE (v : JVal) (n : Int) : Option Bool :=
  match v with
  | JVal.num m => some (decide (n ≤ m))
  | JVal.bool b => some (decide (n ≤ (if b then (1 : Int) else 0)))
  | _ => none

/-- Python dict.get on a parsed JSON object: the stored value when the key
is present (whatever its type), the supplied default only when absent. -/
def dictGet (fs : List (String × JVal)) (k : String) (dflt : JVal) : JVal :=
  match fs.lookup k with
  | some v => v
  | none => dflt

/-- Python str.replace at character-list level: left-to-right,
non-overlapping, every occurrence.  Fuel-structured so that the kernel can
evaluate it; fuel is instantiated with the length of the subject, which is
enough for the non-empty patterns the source uses. -/
def replaceFuel (pat repl : List Char) : Nat → List Char → List Char
  | _, [] => []
  | 0, s => s
  | fuel + 1, c :: rest =>
      if pat.isPrefixOf (c :: rest) then
        repl ++ replaceFuel pat repl fuel (List.drop pat.length (c :: rest))
      else
        c :: replaceFuel pat repl fuel rest

/-- Python str.replace on strings (non-empty pattern). -/
def pyReplace (s pat repl : String) : String :=
  String.mk (replaceFuel pat.data repl.data s.data.length s.data)

/-- Whitespace characters removed by Python str.strip (ASCII range). -/
def isPySpace (c : Char) : Bool :=
  c = ' ' || c = '\t' || c = '\n' || c = '\r' || c = '\x0b' || c = '\x0c'

/-- Python str.strip(): drop whitespace from both ends. -/
def pyStrip (s : String) : String :=
  String.mk (((s.data.dropWhile isPySpace).reverse.dropWhile isPySpace).reverse)

/-- Source line 178: strip markdown fences and surrounding whitespace from
the evaluator output before handing it to json.loads. -/
def cleanJson (s : String) : String :=
  pyStrip (pyReplace (pyReplace s "```json" "") "```" "")

/-- One text-bearing content part of a model response (part.text may be
absent). -/
structure ContentPart where
  text : Option String
deriving DecidableEq, Repr

/-- The content of one candidate: its sequence of parts. -/
structure Content where
  parts : List ContentPart
deriving DecidableEq, Repr

/-- One candidate of a model response. -/
structure Candidate where
  content : Content
deriving DecidableEq, Repr

/-- Outcome of one call to client.models.generate_content: either the call
raised (with the message str(e)) or it returned a candidate list. -/
inductive CallResult where
  | raised (msg : String)
  | resp (candidates : List Candidate)
deriving DecidableEq, Repr

/-- Source lines 112-115: accumulate part.text over the parts of the first
candidate, in order, skipping falsy (absent or empty) texts. -/
def concatParts : List ContentPart → String
  | [] => ""
  | p :: ps =>
      (match p.text with
       | some t => if t = "" then "" else t
       | none => "") ++ concatParts ps

/-- The text accumulated from the first candidate of a response (empty when
there is no candidate, matching the guard on line 112 which leaves
full_text empty in that case). -/
def concatFirst (cands : List Candidate) : String :=
  match cands with
  | [] => ""
  | c :: _ => concatParts c.content.parts

/-- Whether a content part is text-bearing, i.e. part.text is truthy. -/
def partTruthy (p : ContentPart) : Bool :=
  match p.text with
  | some t => t ≠ ""
  | none => false

/-- Whether the first candidate has a text-bearing (truthy) part. -/
def hasText (cands : List Candidate) : Bool :=
  match cands with
  | [] => false
  | c :: _ => c.content.parts.any partTruthy

/-- Source lines 103-120 (execute_agent, from the try block onward): on a
raised call return the recovered error string, otherwise extract the text
of the first candidate with the "No response generated." fallback. -/
def executeAgent : CallResult → String
  | CallResult.raised msg => "Error: " ++ msg
  | CallResult.resp cands =>
      let full_text := concatFirst cands
      if full_text = "" then "No response generated." else full_text

/-- Source lines 147-151: the context package f-string. -/
def contextPackage (location visuals lore : String) : String :=
  "LOCATION: " ++ location ++ "\n" ++
  "VISUALS: " ++ visuals ++ "\n" ++
  "VERIFIED LORE: " ++ lore ++ "\n"

/-- The session_memory dict built by run_pipeline. -/
structure SessionMemory where
  visuals : String
  lore : String
  drafts : List String
  final_myth : String
deriving DecidableEq, Repr

/-- The external world of one pipeline run: the result of the vision call,
of the investigator call, of the bard and critic calls of each loop
iteration, and the behaviour of json.loads (`none` models a raised
json.JSONDecodeError). -/
structure Env where
  vision : CallResult
  investigator : CallResult
  bard : Nat → CallResult
  critic : Nat → CallResult
  loads : String → Option JVal

/-- The parsed evaluator output when it is a JSON object; `none` covers
both a raised json.loads and a parsed non-object value (on which the
subsequent data.get raises AttributeError). -/
def loadsObj : Option JVal → Option (List (String × JVal))
  | some (JVal.obj fs) => some fs
  | _ => none

/-- Source lines 177-186, the try block of one loop iteration: returns the
feedback variable after the iteration and whether the loop breaks.  A parse
or extraction failure breaks with feedback unchanged; a parsed object
updates feedback (line 181 runs before the comparison on line 183) and then
breaks on score >= 8, breaks on a TypeError of the comparison, and
continues otherwise. -/
def evalStep (loads : String → Option JVal) (eval_result : String) (fb : JVal) :
    JVal × Bool :=
  match loadsObj (loads (cleanJson eval_result)) with
  | none => (fb, true)
  | some fs =>
      let score := dictGet fs "score" (JVal.num 0)
      let fb2 := dictGet fs "feedback" (JVal.str "Good.")
      match pyGE score 8 with
      | some false => (fb2, false)
      | _ => (fb2, true)

/-- The loop state of run_pipeline: the current draft and feedback
variables, the accumulated drafts, plus bookkeeping the claims are about
(the bard prompts issued, completed iterations, gateway calls issued). -/
structure LoopState where
  currentDraft : String
  feedback : JVal
  drafts : List String
  prompts : List String
  iterations : Nat
  calls : Nat

/-- The bard prompt of one iteration (source lines 161-165): "Write the
myth." on a falsy feedback, the refine prompt interpolating str(feedback)
otherwise, concatenated with the context package. -/
def bardPrompt (fb : JVal) (ctx : String) : String :=
  (if pyTruthy fb then "Refine this myth based on feedback: " ++ pyStr fb
   else "Write the myth.") ++ "\n\nCONTEXT:\n" ++ ctx

/-- One iteration of the loop body (source lines 160-186): generate a
draft, append it, evaluate it, and run the guarded parse.  Returns the new
state and whether the loop breaks. -/
def loopIter (env : Env) (ctx : String) (i : Nat) (st : LoopState) :
    LoopState × Bool :=
  let current_draft := executeAgent (env.bard i)
  let eval_result := executeAgent (env.critic i)
  let fb := evalStep env.loads eval_result st.feedback
  ({ currentDraft := current_draft
     feedback := fb.1
     drafts := st.drafts ++ [current_draft]
     prompts := st.prompts ++ [bardPrompt st.feedback ctx]
     iterations := st.iterations + 1
     calls := st.calls + 2 }, fb.2)

/-- The `for i in range(2)` loop with break (source line 159), expressed
with the remaining iteration count as fuel and the running index i. -/
def runLoop (env : Env) (ctx : String) : Nat → Nat → LoopState → LoopState
  | 0, _, st => st
  | fuel + 1, i, st =>
      let r := loopIter env ctx i st
      if r.2 then r.1 else runLoop env ctx fuel (i + 1) r.1

/-- The loop state at pipeline start: empty current draft, the empty-string
feedback of line 157, no drafts, and the two gathering calls already
counted. -/
def initState : LoopState :=
  { currentDraft := ""
    feedback := JVal.str ""
    drafts := []
    prompts := []
    iterations := 0
    calls := 2 }

/-- The value run_pipeline hands back, together with the run trace the
claims quantify over. -/
structure RunResult where
  memory : SessionMemory
  prompts : List String
  iterations : Nat
  calls : Nat

/-- Source lines 72-189 (run_pipeline): gather visuals and lore, compact
the context, run the bounded refine loop, assemble the session memory. -/
def run_pipeline (env : Env) (location : String) : RunResult :=
  let visuals := executeAgent env.vision
  let lore := executeAgent env.investigator
  let ctx := contextPackage location visuals lore
  let st := runLoop env ctx 2 0 initState
  { memory :=
      { visuals := visuals
        lore := lore
        drafts := st.drafts
        final_myth := st.currentDraft }
    prompts := st.prompts
    iterations := st.iterations
    calls := st.calls }

/-- Following the wording of the specification: a labeled line, the label
followed by the value and a line break. -/
def labeledLine (label value : String) : String :=
  label ++ " " ++ value ++ "\n"

/-- Following the wording of the specification: the compaction output is
three labeled lines, each holding the corresponding input exactly once. -/
def specCompact (location visuals lore : String) : String :=
  labeledLine "LOCATION:" location ++
  labeledLine "VISUALS:" visuals ++
  labeledLine "VERIFIED LORE:" lore

/-- A successful model response carrying a single text part. -/
def mkText (s : String) : CallResult :=
  CallResult.resp [⟨⟨[⟨some s⟩]⟩⟩]

/-- A json.loads oracle agreeing with the real library on every string the
concrete runs below feed it: each listed document parses to its object,
everything else (prose, drafts, error strings) raises. -/
def jsonTable : String → Option JVal := fun s =>
  if s = "\x7b\"score\": \"bad\"\x7d" then
    some (JVal.obj [("score", JVal.str "bad")])
  else if s = "\x7b\x7d" then
    some (JVal.obj [])
  else if s = "\x7b\"score\": 3, \"feedback\": \"\"\x7d" then
    some (JVal.obj [("score", JVal.num 3), ("feedback", JVal.str "")])
  else if s = "\x7b\"score\": 3, \"feedback\": \"add dread\"\x7d" then
    some (JVal.obj [("score", JVal.num 3), ("feedback", JVal.str "add dread")])
  else if s = "\x7b\"score\": 9, \"feedback\": \"great\"\x7d" then
    some (JVal.obj [("score", JVal.num 9), ("feedback", JVal.str "great")])
  else none

/-- A base environment for concrete runs: successful gathering calls, two
distinct drafts, a prose critic. -/
def envBase : Env :=
  { vision := mkText "V"
    investigator := mkText "LORE"
    bard := fun i => mkText (if i = 0 then "draft one" else "draft two")
    critic := fun _ => mkText "prose"
    loads := jsonTable }

/-- Environment whose vision call raises. -/
def envC2w : Env :=
  { envBase with vision := CallResult.raised "boom" }

/-- Environment whose critic answers with a present but non-numeric score. -/
def envC3x : Env :=
  { envBase with critic := fun _ => mkText "\x7b\"score\": \"bad\"\x7d" }

/-- Environment whose critic answers with an empty JSON object. -/
def envC3w : Env :=
  { envBase with critic := fun _ => mkText "\x7b\x7d" }

/-- Environment whose critic answers score 3 with empty-string feedback. -/
def envC4x : Env :=
  { envBase with critic := fun _ => mkText "\x7b\"score\": 3, \"feedback\": \"\"\x7d" }

/-- Environment whose critic answers score 3 with non-empty feedback. -/
def envC4w : Env :=
  { envBase with critic := fun _ => mkText "\x7b\"score\": 3, \"feedback\": \"add dread\"\x7d" }

/-- Environment whose critic answers prose (json.loads raises on it). -/
def envC5w : Env := envBase

/-- Environment whose critic answers score 9 on the first iteration. -/
def envC6w : Env :=
  { envBase with critic := fun _ => mkText "\x7b\"score\": 9, \"feedback\": \"great\"\x7d" }

/-- Environment continuing after iteration 1, second critic scoring 9. -/
def envC10a : Env :=
  { envBase with critic := fun i =>
      if i = 0 then mkText "\x7b\"score\": 3, \"feedback\": \"add dread\"\x7d"
      else mkText "\x7b\"score\": 9, \"feedback\": \"great\"\x7d" }

/-- Environment continuing after iteration 1, second critic answering
unparseable prose. -/
def envC10b : Env :=
  { envBase with critic := fun i =>
      if i = 0 then mkText "\x7b\"score\": 3, \"feedback\": \"add dread\"\x7d"
      else mkText "prose" }

/-! ## Helper lemmas -/

theorem string_append_eq_empty (a b : String) : a ++ b = "" ↔ a = "" ∧ b = "" := by
  constructor
  · intro h
    have h2 := congrArg String.data h
    simp [String.data_append] at h2
    exact ⟨String.ext h2.1, String.ext h2.2⟩
  · rintro ⟨rfl, rfl⟩
    rfl

theorem concatParts_eq_empty (ps : List ContentPart) :
    concatParts ps = "" ↔ ps.any partTruthy = false := by
  induction ps with
  | nil => simp [concatParts]
  | cons p ps ih =>
    rw [concatParts, string_append_eq_empty, ih]
    cases hp : p.text with
    | none => simp [partTruthy, hp]
    | some t =>
      by_cases ht : t = "" <;> simp [partTruthy, hp, ht]

theorem loopIter_eq (env : Env) (ctx : String) (i : Nat) (st : LoopState) :
    loopIter env ctx i st =
      ({ currentDraft := executeAgent (env.bard i)
         feedback := (evalStep env.loads (executeAgent (env.critic i)) st.feedback).1
         drafts := st.drafts ++ [executeAgent (env.bard i)]
         prompts := st.prompts ++ [bardPrompt st.feedback ctx]
         iterations := st.iterations + 1
         calls := st.calls + 2 },
       (evalStep env.loads (executeAgent (env.critic i)) st.feedback).2) := rfl

theorem runLoop_two (env : Env) (ctx : String) (st : LoopState) :
    runLoop env ctx 2 0 st =
      (if (loopIter env ctx 0 st).2 then (loopIter env ctx 0 st).1
       else (loopIter env ctx 1 (loopIter env ctx 0 st).1).1) := by
  by_cases h : (loopIter env ctx 0 st).2 <;> simp [runLoop, h]

/-! ## Claims about the gateway (execute_agent) -/

/-- Claim C2: whenever the external completion call raises, execute_agent
recovers: it returns the string "Error: " followed by the failure message
and never propagates the exception (in this embedding execute_agent and
run_pipeline are total functions), so the pipeline continues — here
witnessed by the run that stores the recovered string as its visuals. -/
theorem gateway_error_recovered (msg : String) (env : Env) (loc : String) :
    executeAgent (CallResult.raised msg) = "Error: " ++ msg ∧
    (env.vision = CallResult.raised msg →
      (run_pipeline env loc).memory.visuals = "Error: " ++ msg) := by
  refine ⟨rfl, fun h => ?_⟩
  show executeAgent env.vision = "Error: " ++ msg
  rw [h]
  rfl

theorem gateway_error_recovered_witness :
    executeAgent (CallResult.raised "boom") = "Error: boom" ∧
    (run_pipeline envC2w "Tower of London").memory.visuals = "Error: boom" :=
  ⟨(gateway_error_recovered "boom" envC2w "Tower of London").1,
   (gateway_error_recovered "boom" envC2w "Tower of London").2 rfl⟩

/-- Claim C7: on a successful response, the returned text is the in-order
concatenation of the text-bearing parts of the first candidate, and the
literal fallback "No response generated." is returned exactly when no
text-bearing part exists (hasText is false iff that concatenation is
empty). -/
theorem gateway_text_extraction (cands : List Candidate) :
    executeAgent (CallResult.resp cands) =
      (if hasText cands then concatFirst cands else "No response generated.") ∧
    (hasText cands = true ↔ concatFirst cands ≠ "") := by
  have key : concatFirst cands = "" ↔ hasText cands = false := by
    cases cands with
    | nil => simp [concatFirst, hasText]
    | cons c cs => simp [concatFirst, hasText, concatParts_eq_empty]
  constructor
  · show (if concatFirst cands = "" then "No response generated." else concatFirst cands) = _
    by_cases h : concatFirst cands = ""
    · simp [h, key.mp h]
    · have : hasText cands = true := by
        cases hh : hasText cands with
        | false => exact absurd (key.mpr hh) h
        | true => rfl
      simp [h, this]
  · constructor
    · intro h hc
      rw [key.mp hc] at h
      exact Bool.false_ne_true h
    · intro h
      cases hh : hasText cands with
      | false => exact absurd (key.mpr hh) h
      | true => rfl

/-! ## Claim about context compaction -/

/-- Claim C8: the context package is a pure function of location, visuals
and lore (a Lean function, hence deterministic), equal to the three
labeled lines of the specification, and it contains each of the three
inputs exactly once, unmodified, as exhibited by the explicit
decompositions. -/
theorem context_compaction_structure (location visuals lore : String) :
    contextPackage location visuals lore = specCompact location visuals lore ∧
    (∃ p q, contextPackage location visuals lore = p ++ (location ++ q)) ∧
    (∃ p q, contextPackage location visuals lore = p ++ (visuals ++ q)) ∧
    (∃ p q, contextPackage location visuals lore = p ++ (lore ++ q)) := by
  refine ⟨?_, ?_, ?_, ?_⟩
  · show "LOCATION: " ++ location ++ "\n" ++ "VISUALS: " ++ visuals ++ "\n" ++
      "VERIFIED LORE: " ++ lore ++ "\n" =
      ("LOCATION:" ++ " " ++ location ++ "\n") ++ ("VISUALS:" ++ " " ++ visuals ++ "\n") ++
      ("VERIFIED LORE:" ++ " " ++ lore ++ "\n")
    simp only [String.append_assoc]
    rfl
  · refine ⟨"LOCATION: ", "\n" ++ "VISUALS: " ++ visuals ++ "\n" ++
      "VERIFIED LORE: " ++ lore ++ "\n", ?_⟩
    show "LOCATION: " ++ location ++ "\n" ++ "VISUALS: " ++ visuals ++ "\n" ++
      "VERIFIED LORE: " ++ lore ++ "\n" = _
    simp only [String.append_assoc]
  · refine ⟨"LOCATION: " ++ location ++ "\n" ++ "VISUALS: ",
      "\n" ++ "VERIFIED LORE: " ++ lore ++ "\n", ?_⟩
    show "LOCATION: " ++ location ++ "\n" ++ "VISUALS: " ++ visuals ++ "\n" ++
      "VERIFIED LORE: " ++ lore ++ "\n" = _
    simp only [String.append_assoc]
  · refine ⟨"LOCATION: " ++ location ++ "\n" ++ "VISUALS: " ++ visuals ++ "\n" ++
      "VERIFIED LORE: ", "\n", ?_⟩
    show "LOCATION: " ++ location ++ "\n" ++ "VISUALS: " ++ visuals ++ "\n" ++
      "VERIFIED LORE: " ++ lore ++ "\n" = _
    simp only [String.append_assoc]

/-! ## Claims about the refine loop and the session memory -/

/-- Claim C1: every run yields a drafts list whose length equals the number
of completed loop iterations, that number is 1 or 2, and final_myth equals
the last element of drafts — on every environment, hence also when the
loop exits through the parse-failure path. -/
theorem sessionMemory_drafts_invariant (env : Env) (loc : String) :
    (run_pipeline env loc).memory.drafts.length = (run_pipeline env loc).iterations ∧
    ((run_pipeline env loc).iterations = 1 ∨ (run_pipeline env loc).iterations = 2) ∧
    (run_pipeline env loc).memory.drafts.getLast? =
      some (run_pipeline env loc).memory.final_myth := by
  simp only [run_pipeline]
  rw [runLoop_two]
  by_cases h : (loopIter env (contextPackage loc (executeAgent env.vision)
      (executeAgent env.investigator)) 0 initState).2
  · rw [if_pos h]
    simp [loopIter_eq, initState]
  · rw [if_neg h]
    simp [loopIter_eq, initState]

/-- Claim C9: the loop never runs more than 2 iterations and the total
number of gateway invocations is 2 + 2 per iteration, hence between 4
and 6. -/
theorem loop_and_call_bounds (env : Env) (loc : String) :
    (run_pipeline env loc).iterations ≤ 2 ∧
    (run_pipeline env loc).calls = 2 + 2 * (run_pipeline env loc).iterations ∧
    4 ≤ (run_pipeline env loc).calls ∧ (run_pipeline env loc).calls ≤ 6 := by
  simp only [run_pipeline]
  rw [runLoop_two]
  by_cases h : (loopIter env (contextPackage loc (executeAgent env.vision)
      (executeAgent env.investigator)) 0 initState).2
  · rw [if_pos h]
    simp [loopIter_eq, initState]
  · rw [if_neg h]
    simp [loopIter_eq, initState]

/-- Claim C5: when the normalize-and-parse step of the first evaluation
fails in any way (json.loads raises, or the parsed value is not an object
so that the extraction raises), the loop stops after exactly one
iteration, the first draft is the final myth, and (the embedding being
total) no exception escapes. -/
theorem parse_failure_stops_loop (env : Env) (loc : String)
    (hp : loadsObj (env.loads (cleanJson (executeAgent (env.critic 0)))) = none) :
    (run_pipeline env loc).iterations = 1 ∧
    (run_pipeline env loc).memory.drafts = [executeAgent (env.bard 0)] ∧
    (run_pipeline env loc).memory.final_myth = executeAgent (env.bard 0) := by
  have hb : (loopIter env (contextPackage loc (executeAgent env.vision)
      (executeAgent env.investigator)) 0 initState).2 = true := by
    show (evalStep env.loads (executeAgent (env.critic 0)) (JVal.str "")).2 = true
    unfold evalStep
    rw [hp]
  simp only [run_pipeline]
  rw [runLoop_two, if_pos hb]
  simp [loopIter_eq, initState]

theorem parse_failure_stops_loop_witness :
    (run_pipeline envC5w "L").iterations = 1 ∧
    (run_pipeline envC5w "L").memory.drafts = [executeAgent (envC5w.bard 0)] ∧
    (run_pipeline envC5w "L").memory.final_myth = executeAgent (envC5w.bard 0) :=
  parse_failure_stops_loop envC5w "L" rfl

/-- Claim C6: when the first evaluation parses to a JSON object whose
score is a number at least 8, the loop stops after exactly one iteration
and the final myth is the first draft. -/
theorem high_score_stops_loop (env : Env) (loc : String) (n : Int)
    (fs : List (String × JVal))
    (hp : loadsObj (env.loads (cleanJson (executeAgent (env.critic 0)))) = some fs)
    (hs : fs.lookup "score" = some (JVal.num n))
    (hn : 8 ≤ n) :
    (run_pipeline env loc).iterations = 1 ∧
    (run_pipeline env loc).memory.drafts = [executeAgent (env.bard 0)] ∧
    (run_pipeline env loc).memory.final_myth = executeAgent (env.bard 0) := by
  have hb : (loopIter env (contextPackage loc (executeAgent env.vision)
      (executeAgent env.investigator)) 0 initState).2 = true := by
    show (evalStep env.loads (executeAgent (env.critic 0)) (JVal.str "")).2 = true
    unfold evalStep
    rw [hp]
    simp only [dictGet, hs, pyGE]
    rw [decide_eq_true hn]
  simp only [run_pipeline]
  rw [runLoop_two, if_pos hb]
  simp [loopIter_eq, initState]

theorem high_score_stops_loop_witness :
    (run_pipeline envC6w "L").iterations = 1 ∧
    (run_pipeline envC6w "L").memory.drafts = [executeAgent (envC6w.bard 0)] ∧
    (run_pipeline envC6w "L").memory.final_myth = executeAgent (envC6w.bard 0) :=
  high_score_stops_loop envC6w "L" 9
    [("score", JVal.num 9), ("feedback", JVal.str "great")] rfl rfl (by norm_num)

/-- Counterexample to claim C3: a critic answer that parses to a JSON
object whose score field is present but not a number (here the string
value bad).  The claim predicts the score defaults to 0 and the loop
proceeds to a second iteration; in the code data.get returns the invalid
value unchanged, the comparison score >= 8 raises a TypeError, the bare
except catches it and the loop stops after one iteration. -/
theorem invalid_score_not_defaulted :
    (run_pipeline envC3x "L").memory.drafts.length = 1 ∧
    (run_pipeline envC3x "L").iterations = 1 ∧
    ¬((run_pipeline envC3x "L").iterations = 2) :=
  ⟨rfl, rfl, by decide⟩

/-- Claim C3 as amended: for an evaluator output parsing to a JSON object,
an ABSENT score defaults to 0 and an ABSENT feedback defaults to Good.,
and the loop proceeds on these defaults: score 0 is below the acceptance
threshold, so a second iteration runs and its prompt interpolates the
defaulted feedback.  (A present-but-invalid field is not defaulted: see
the counterexample.) -/
theorem missing_fields_default (env : Env) (loc : String)
    (fs : List (String × JVal))
    (hp : loadsObj (env.loads (cleanJson (executeAgent (env.critic 0)))) = some fs)
    (hs : fs.lookup "score" = none)
    (hf : fs.lookup "feedback" = none) :
    (run_pipeline env loc).iterations = 2 ∧
    (run_pipeline env loc).prompts =
      ["Write the myth." ++ "\n\nCONTEXT:\n" ++
         contextPackage loc (executeAgent env.vision) (executeAgent env.investigator),
       "Refine this myth based on feedback: Good." ++ "\n\nCONTEXT:\n" ++
         contextPackage loc (executeAgent env.vision) (executeAgent env.investigator)] := by
  have he : evalStep env.loads (executeAgent (env.critic 0)) (JVal.str "") =
      (JVal.str "Good.", false) := by
    unfold evalStep
    rw [hp]
    simp only [dictGet, hs, hf, pyGE]
    rfl
  have hb : (loopIter env (contextPackage loc (executeAgent env.vision)
      (executeAgent env.investigator)) 0 initState).2 = false := by
    show (evalStep env.loads (executeAgent (env.critic 0)) (JVal.str "")).2 = false
    rw [he]
  simp only [run_pipeline]
  rw [runLoop_two, if_neg (by rw [hb]; exact Bool.false_ne_true)]
  refine ⟨rfl, ?_⟩
  show ([] ++ [bardPrompt (JVal.str "") _]) ++
      [bardPrompt (evalStep env.loads (executeAgent (env.critic 0)) (JVal.str "")).1 _] = _
  rw [he]
  show [bardPrompt (JVal.str "") _, bardPrompt (JVal.str "Good.") _] = _
  unfold bardPrompt
  norm_num [pyTruthy, pyStr]
  simp only [String.append_assoc]
  rfl

theorem missing_fields_default_witness :
    (run_pipeline envC3w "L").iterations = 2 ∧
    (run_pipeline envC3w "L").prompts =
      ["Write the myth." ++ "\n\nCONTEXT:\n" ++
         contextPackage "L" (executeAgent envC3w.vision) (executeAgent envC3w.investigator),
       "Refine this myth based on feedback: Good." ++ "\n\nCONTEXT:\n" ++
         contextPackage "L" (executeAgent envC3w.vision) (executeAgent envC3w.investigator)] :=
  missing_fields_default envC3w "L" [] rfl rfl rfl

/-- Counterexample to claim C4: when iteration 1 extracts the feedback
empty string (present in the JSON object, hence not defaulted), the
second-pass prompt is again Write the myth., not the refine template:
the source guards the refine prompt with the truthiness test
`if feedback:`. -/
theorem falsy_feedback_reverts_prompt :
    (evalStep envC4x.loads (executeAgent (envC4x.critic 0)) (JVal.str "")).1 =
      JVal.str "" ∧
    ((run_pipeline envC4x "L").prompts)[1]? =
      some ("Write the myth." ++ "\n\nCONTEXT:\n" ++ contextPackage "L" "V" "LORE") ∧
    ((run_pipeline envC4x "L").prompts)[1]? ≠
      some ("Refine this myth based on feedback: " ++ "\n\nCONTEXT:\n" ++
        contextPackage "L" "V" "LORE") :=
  ⟨rfl, rfl, by decide⟩

/-- Claim C4 as amended: the first-pass prompt is always Write the myth.
plus the compacted context; when the first evaluation parses to an object,
extracts a string feedback and continues (score below 8), the second-pass
prompt is the refine template interpolating that feedback if it is
truthy (non-empty), and reverts to Write the myth. when the extracted
feedback is the empty string. -/
theorem prompt_selection :
    (∀ env : Env, ∀ loc : String,
      ((run_pipeline env loc).prompts)[0]? =
        some ("Write the myth." ++ "\n\nCONTEXT:\n" ++
          contextPackage loc (executeAgent env.vision) (executeAgent env.investigator))) ∧
    (∀ env : Env, ∀ loc : String, ∀ fs : List (String × JVal), ∀ s : String,
      loadsObj (env.loads (cleanJson (executeAgent (env.critic 0)))) = some fs →
      dictGet fs "feedback" (JVal.str "Good.") = JVal.str s →
      pyGE (dictGet fs "score" (JVal.num 0)) 8 = some false →
      ((run_pipeline env loc).prompts)[1]? =
        some ((if s = "" then "Write the myth."
               else "Refine this myth based on feedback: " ++ s) ++ "\n\nCONTEXT:\n" ++
          contextPackage loc (executeAgent env.vision) (executeAgent env.investigator))) := by
  constructor
  · intro env loc
    simp only [run_pipeline]
    rw [runLoop_two]
    by_cases h : (loopIter env (contextPackage loc (executeAgent env.vision)
        (executeAgent env.investigator)) 0 initState).2
    · rw [if_pos h]
      simp [loopIter_eq, initState, bardPrompt, pyTruthy]
    · rw [if_neg h]
      simp [loopIter_eq, initState, bardPrompt, pyTruthy]
  · intro env loc fs s hp hfb hge
    have he : evalStep env.loads (executeAgent (env.critic 0)) (JVal.str "") =
        (JVal.str s, false) := by
      unfold evalStep
      rw [hp]
      simp only [hge, hfb]
    have hb : (loopIter env (contextPackage loc (executeAgent env.vision)
        (executeAgent env.investigator)) 0 initState).2 = false := by
      show (evalStep env.loads (executeAgent (env.critic 0)) (JVal.str "")).2 = false
      rw [he]
    simp only [run_pipeline]
    rw [runLoop_two, if_neg (by rw [hb]; exact Bool.false_ne_true)]
    show (([] ++ [bardPrompt (JVal.str "") _]) ++
        [bardPrompt (evalStep env.loads (executeAgent (env.critic 0)) (JVal.str "")).1 _])[1]? = _
    rw [he]
    show (some (bardPrompt (JVal.str s) _) : Option String) = _
    by_cases hs0 : s = ""
    · simp [bardPrompt, pyTruthy, pyStr, hs0]
    · simp [bardPrompt, pyTruthy, pyStr, hs0]

theorem prompt_selection_witness :
    ((run_pipeline envC4w "L").prompts)[0]? =
      some ("Write the myth." ++ "\n\nCONTEXT:\n" ++
        contextPackage "L" (executeAgent envC4w.vision) (executeAgent envC4w.investigator)) ∧
    ((run_pipeline envC4w "L").prompts)[1]? =
      some ((if "add dread" = "" then "Write the myth."
             else "Refine this myth based on feedback: " ++ "add dread") ++ "\n\nCONTEXT:\n" ++
        contextPackage "L" (executeAgent envC4w.vision) (executeAgent envC4w.investigator)) :=
  ⟨prompt_selection.1 envC4w "L",
   prompt_selection.2 envC4w "L"
     [("score", JVal.num 3), ("feedback", JVal.str "add dread")] "add dread" rfl rfl rfl⟩

/-- Claim C10: the memory a run returns never depends on the evaluator
outcome of iteration 2: two runs over environments agreeing on the
gathering calls, on the bard calls, on the first critic call, and on
json.loads — hence possibly differing arbitrarily in the second critic
call — return identical visuals, lore, drafts and final_myth. -/
theorem second_eval_no_influence (e1 e2 : Env) (loc : String)
    (hv : e1.vision = e2.vision) (hi : e1.investigator = e2.investigator)
    (hb : e1.bard = e2.bard) (hc : e1.critic 0 = e2.critic 0)
    (hl : e1.loads = e2.loads) :
    (run_pipeline e1 loc).memory = (run_pipeline e2 loc).memory := by
  simp only [run_pipeline, runLoop_two, loopIter_eq]
  rw [hv, hi, hb, hc, hl]
  by_cases h : (evalStep e2.loads (executeAgent (e2.critic 0)) initState.feedback).2 = true
  · simp [h]
  · simp [h]

theorem second_eval_no_influence_witness :
    (run_pipeline envC10a "L").memory = (run_pipeline envC10b "L").memory :=
  second_eval_no_influence envC10a envC10b "L" rfl rfl rfl rfl rfl
